import Mathlib

/-!
Shallow embedding of `database.py` (phrase_pair_db): a small in-memory store
for bilingual sentence-pair dictionaries with JSON and tabular persistence.

Python dynamic values are modelled by `PyVal` (only the variants the code can
actually receive matter: `None`, strings, and a non-string stand-in `int`).
Exceptions are modelled with `Except PyErr`.  Mutating methods become pure
functions returning the new state.  File I/O round-trips a parsed document
structure unchanged, so the JSON codec is modelled directly on that structure.
-/

set_option autoImplicit false

/-- Python exception kinds raised by `database.py`. -/
inductive PyErr where
  | typeError
  | valueError
  | keyError
  | indexError
deriving DecidableEq, Repr

/-- A Python value as it can appear in the arguments and cells this code
handles: `None`, a string, or a non-string value (stood in for by `int`). -/
inductive PyVal where
  | none
  | str (s : String)
  | int (n : Int)
deriving DecidableEq, Repr

/-- `isinstance(v, str)`. -/
def PyVal.isStr : PyVal → Bool
  | .str _ => true
  | _ => false

/-- Python truthiness of the modelled values. -/
def pyTruthy : PyVal → Bool
  | .none => false
  | .str s => decide (s ≠ "")
  | .int n => decide (n ≠ 0)

/-- Python `a and b`: returns `a` when `a` is falsy, else `b`. -/
def pyAnd (a b : PyVal) : PyVal :=
  if pyTruthy a then b else a

/-- Python `v == ""` (false for any non-string value). -/
def pyEqEmpty : PyVal → Bool
  | .str s => decide (s = "")
  | _ => false

/-- Python `str(v)` for the modelled values. -/
def pyStr : PyVal → String
  | .none => "None"
  | .str s => s
  | .int n => toString n

/-- A `TransPair` object: the two stored elements (`UserList` of length 2).
Source `database.py` lines 33-45. -/
structure TransPair where
  fst : PyVal
  snd : PyVal
deriving DecidableEq, Repr

/-- `TransPair.__init__(item0, item1)` (`database.py` lines 40-45):
raises `TypeError` when `item0` and `item1` are both non-strings, raises
`ValueError` when `(item0 and item1) == ""`, else stores `[item0, item1]`. -/
def TransPair.init (item0 item1 : PyVal) : Except PyErr TransPair :=
  if ¬ item0.isStr ∧ ¬ item1.isStr then .error .typeError
  else if pyEqEmpty (pyAnd item0 item1) then .error .valueError
  else .ok ⟨item0, item1⟩

/-- C6 — for `TransPair.__init__`, the finding at the failing input: with one
non-string argument (`1`) and one string argument (`"x"`) no `TypeError` is
raised; the pair is constructed holding the non-string value, contradicting
the class docstring "A sentence pair must be a string object". -/
theorem transPair_init_accepts_single_nonstring :
    TransPair.init (PyVal.int 1) (PyVal.str "x") =
      .ok ⟨PyVal.int 1, PyVal.str "x"⟩ := rfl

/-- C7 — `TransPair.__init__` raises `ValueError` whenever either string
argument is the empty string: `(item0 and item1)` evaluates to `item0` when
`item0` is empty and to `item1` otherwise, so the `== ""` comparison fires
exactly when one of the two strings is empty. -/
theorem transPair_init_empty_valueError (a b : String) (h : a = "" ∨ b = "") :
    TransPair.init (.str a) (.str b) = .error .valueError := by
  rcases h with h | h
  · subst h
    simp [TransPair.init, PyVal.isStr, pyAnd, pyTruthy, pyEqEmpty]
  · subst h
    by_cases ha : a = ""
    · subst ha
      simp [TransPair.init, PyVal.isStr, pyAnd, pyTruthy, pyEqEmpty]
    · simp [TransPair.init, PyVal.isStr, pyAnd, pyTruthy, pyEqEmpty, ha]

/-- Witness for C7 at the concrete input `("", "x")`. -/
theorem transPair_init_empty_valueError_witness :
    TransPair.init (.str "") (.str "x") = .error .valueError :=
  transPair_init_empty_valueError "" "x" (Or.inl rfl)

/-- Arguments that can be handed to `TransList` methods: an actual
`TransPair` object, a `TransList` object, or a raw Python list. -/
inductive PyObj where
  | transPair (tp : TransPair)
  | transList (tl : List TransPair)
  | rawList (l : List PyVal)
deriving DecidableEq, Repr

/-- A `TransList` is a `UserList` of `TransPair`; its state is the stored
sequence. -/
abbrev TransList := List TransPair

/-- `TransList.append(tp_key)` applied to a `TransPair` object
(`database.py` lines 90-97): rejects a structurally equal duplicate with
`KeyError`, else appends at the end. -/
def TransList.appendPair (l : TransList) (tp : TransPair) : Except PyErr TransList :=
  if tp ∈ l then .error .keyError
  else .ok (l ++ [tp])

/-- `TransList.append(tp_key)` on an arbitrary argument: a non-`TransPair`
argument is rejected with `TypeError` before the duplicate check. -/
def TransList.appendObj (l : TransList) (x : PyObj) : Except PyErr TransList :=
  match x with
  | .transPair tp => TransList.appendPair l tp
  | _ => .error .typeError

/-- Loop of `TransList.__init__(*args)` (`database.py` lines 73-79): each
argument is routed through `append`, fail-fast. -/
def TransList.initAux (acc : TransList) : List PyObj → Except PyErr TransList
  | [] => .ok acc
  | a :: as =>
    match TransList.appendObj acc a with
    | .ok acc2 => TransList.initAux acc2 as
    | .error e => .error e

/-- `TransList.__init__(*args)`: starts from the empty list and appends each
argument in order. -/
def TransList.init (args : List PyObj) : Except PyErr TransList :=
  TransList.initAux [] args

/-- `TransList.pop(index=-1)` (`database.py` lines 116-122): the body runs
`super().pop(index)` — Python list-pop semantics: a negative index counts
from the end, out of range raises `IndexError` — but the method has no
`return` statement, so the caller receives `None`.  The result is the pair
(value returned to the caller, list state afterwards). -/
def TransList.pop (l : TransList) (index : Int) : Except PyErr (Option TransPair × TransList) :=
  let i := if index < 0 then index + l.length else index
  if 0 ≤ i ∧ i < l.length then .ok (Option.none, l.take i.toNat ++ l.drop (i.toNat + 1))
  else .error .indexError

/-- First loop of `get_translation`: first pair whose element 0 equals the
sentence, returning its element 1 (`database.py` lines 134-137). -/
def TransList.findFst (sentence : PyVal) : TransList → Option PyVal
  | [] => Option.none
  | tp :: rest => if tp.fst = sentence then some tp.snd else TransList.findFst sentence rest

/-- Second loop of `get_translation`: first pair whose element 1 equals the
sentence, returning its element 0 (`database.py` lines 138-141). -/
def TransList.findSnd (sentence : PyVal) : TransList → Option PyVal
  | [] => Option.none
  | tp :: rest => if tp.snd = sentence then some tp.fst else TransList.findSnd sentence rest

/-- `TransList.get_translation(sentence, hint=0)` (`database.py` lines
124-141): hint 0 or 1 runs the first-element loop (returning on a match);
then hint 0 or 2 runs the second-element loop; otherwise the method falls
off the end and returns `None`. -/
def TransList.get_translation (l : TransList) (sentence : PyVal) (hint : Int) : Option PyVal :=
  match (if hint = 0 ∨ hint = 1 then TransList.findFst sentence l else Option.none) with
  | some v => some v
  | Option.none => if hint = 0 ∨ hint = 2 then TransList.findSnd sentence l else Option.none

/-- C4 — the finding at the failing input: popping the last (only) element of
a one-element list removes it from the list but hands the caller `None`, not
the removed pair, contradicting the method docstring "Remove the item at the
given position in the list, and return it." -/
theorem transList_pop_returns_none :
    TransList.pop [⟨PyVal.str "a", PyVal.str "b"⟩] (-1) =
      .ok (Option.none, []) ∧
    TransList.pop [⟨PyVal.str "a", PyVal.str "b"⟩] 5 = .error .indexError := by
  constructor <;> rfl

theorem findFst_eq_find? (s : PyVal) (l : TransList) :
    TransList.findFst s l =
      (l.find? (fun tp => decide (tp.fst = s))).map TransPair.snd := by
  induction l with
  | nil => rfl
  | cons tp rest ih =>
    by_cases h : tp.fst = s <;> simp [TransList.findFst, List.find?, h, ih]

theorem findSnd_eq_find? (s : PyVal) (l : TransList) :
    TransList.findSnd s l =
      (l.find? (fun tp => decide (tp.snd = s))).map TransPair.fst := by
  induction l with
  | nil => rfl
  | cons tp rest ih =>
    by_cases h : tp.snd = s <;> simp [TransList.findSnd, List.find?, h, ih]

/-- C8 — `get_translation`: with hint 0 the result is the second element of
the first pair (in list order, via `List.find?`) whose first element equals
the sentence, else the first element of the first pair whose second element
equals it, else absent; hint 1 searches only first elements and hint 2 only
second elements, each returning the counterpart of the first match. -/
theorem transList_get_translation_spec (l : TransList) (s : PyVal) :
    (TransList.get_translation l s 0 =
      (match l.find? (fun tp => decide (tp.fst = s)) with
        | some tp => some tp.snd
        | Option.none => (l.find? (fun tp => decide (tp.snd = s))).map TransPair.fst)) ∧
    TransList.get_translation l s 1 =
      (l.find? (fun tp => decide (tp.fst = s))).map TransPair.snd ∧
    TransList.get_translation l s 2 =
      (l.find? (fun tp => decide (tp.snd = s))).map TransPair.fst := by
  refine ⟨?_, ?_, ?_⟩ <;>
    simp only [TransList.get_translation, findFst_eq_find?, findSnd_eq_find?] <;>
    rcases h : l.find? (fun tp => decide (tp.fst = s)) with _ | tp <;>
    simp [h]

theorem initAux_map_transPair (tps : List TransPair) (acc : TransList)
    (rest : List PyObj) (h : (acc ++ tps).Nodup) :
    TransList.initAux acc (tps.map PyObj.transPair ++ rest) =
      TransList.initAux (acc ++ tps) rest := by
  induction tps generalizing acc with
  | nil => simp
  | cons tp tps ih =>
    have hmem : tp ∉ acc := by
      rw [List.nodup_append] at h
      exact fun hc => h.2.2 hc (List.mem_cons_self tp tps)
    have h2 : ((acc ++ [tp]) ++ tps).Nodup := by
      simpa [List.append_assoc] using h
    simp only [List.map_cons, List.cons_append, TransList.initAux,
      TransList.appendObj, TransList.appendPair, if_neg hmem, List.append_eq]
    rw [ih (acc ++ [tp]) h2]
    simp [List.append_assoc]

theorem initAux_ok_sound (args : List PyObj) (acc l : TransList)
    (hacc : acc.Nodup) (h : TransList.initAux acc args = .ok l) :
    (∃ tps, args = tps.map PyObj.transPair ∧ l = acc ++ tps) ∧ l.Nodup := by
  induction args generalizing acc with
  | nil =>
    simp only [TransList.initAux] at h
    cases h
    exact ⟨⟨[], rfl, by simp⟩, hacc⟩
  | cons a args ih =>
    cases a with
    | transPair tp =>
      by_cases hmem : tp ∈ acc
      · simp [TransList.initAux, TransList.appendObj, TransList.appendPair, hmem] at h
      · simp only [TransList.initAux, TransList.appendObj, TransList.appendPair,
          if_neg hmem] at h
        have hacc2 : (acc ++ [tp]).Nodup := by
          simp [List.nodup_append, hacc, hmem]
        obtain ⟨⟨tps, hargs, hl⟩, hnd⟩ := ih (acc ++ [tp]) hacc2 h
        exact ⟨⟨tp :: tps, by simp [hargs], by simp [hl]⟩, hnd⟩
    | transList tl => simp [TransList.initAux, TransList.appendObj] at h
    | rawList rl => simp [TransList.initAux, TransList.appendObj] at h

/-- C10 — `TransList.__init__(*args)` routes every argument through `append`:
a non-`TransPair` argument (after a clean prefix of distinct pairs) aborts
construction with `TypeError` and is never converted; any successful
construction consists exactly of the `TransPair` arguments, in order and
duplicate-free; and an argument equal to an earlier one aborts with
`KeyError`. -/
theorem transList_init_spec (tps : List TransPair) (x : PyObj) (rest : List PyObj)
    (hnd : tps.Nodup) (hx : ∀ tp, x ≠ PyObj.transPair tp) :
    TransList.init (tps.map PyObj.transPair ++ x :: rest) = .error .typeError ∧
    (∀ args l, TransList.init args = .ok l →
      args = l.map PyObj.transPair ∧ l.Nodup) ∧
    (∀ tp rest2, tp ∈ tps →
      TransList.init (tps.map PyObj.transPair ++ PyObj.transPair tp :: rest2) =
        .error .keyError) := by
  refine ⟨?_, ?_, ?_⟩
  · rw [TransList.init, initAux_map_transPair tps [] _ (by simpa using hnd)]
    cases x with
    | transPair tp => exact absurd rfl (hx tp)
    | transList tl => simp [TransList.initAux, TransList.appendObj]
    | rawList rl => simp [TransList.initAux, TransList.appendObj]
  · intro args l h
    obtain ⟨⟨tps2, hargs, hl⟩, hnd2⟩ := initAux_ok_sound args [] l List.nodup_nil h
    simp only [List.nil_append] at hl
    exact ⟨hl ▸ hargs, hnd2⟩
  · intro tp rest2 hmem
    rw [TransList.init, initAux_map_transPair tps [] _ (by simpa using hnd)]
    simp [TransList.initAux, TransList.appendObj, TransList.appendPair, hmem]

/-- Witness for C10: one valid pair followed by a raw list aborts with
`TypeError`. -/
theorem transList_init_spec_witness :
    TransList.init
      (([⟨PyVal.str "a", PyVal.str "b"⟩] : List TransPair).map PyObj.transPair ++
        PyObj.rawList [PyVal.str "c", PyVal.str "d"] :: []) = .error .typeError :=
  (transList_init_spec [⟨PyVal.str "a", PyVal.str "b"⟩]
    (PyObj.rawList [PyVal.str "c", PyVal.str "d"]) [] (by simp)
    (fun tp h => nomatch h)).1

/-- Row loop of `TransDatabase.__xlsx_load` for one non-metadata sheet
(`database.py` lines 311-315): rows are read from the top, two cells each;
the loop breaks at the first row with a `None` cell and appends every
earlier row as a two-element entry. -/
def xlsxLoadRows : List (Option String × Option String) → List (String × String)
  | [] => []
  | (r0, r1) :: rest =>
    match r0, r1 with
    | some a, some b => (a, b) :: xlsxLoadRows rest
    | _, _ => []

/-- C9 — tabular-load truncation: for any block of fully filled rows followed
by a row with an empty/absent cell, loading yields exactly the filled prefix;
everything from the first gap on is silently discarded. -/
theorem xlsxLoadRows_truncates (good : List (String × String))
    (bad : Option String × Option String)
    (rest : List (Option String × Option String))
    (h : bad.1 = Option.none ∨ bad.2 = Option.none) :
    xlsxLoadRows (good.map (fun p => (some p.1, some p.2)) ++ bad :: rest) = good := by
  induction good with
  | nil =>
    obtain ⟨b0, b1⟩ := bad
    rcases h with h | h <;> simp only at h <;> subst h
    · simp [xlsxLoadRows]
    · cases b0 <;> simp [xlsxLoadRows]
  | cons p good ih => simpa [xlsxLoadRows] using ih

/-- Witness for C9 at the concrete sheet from the spec: rows
`[("a","b"), ("c","d"), (None,"e"), ("f","g")]` load as exactly
`[("a","b"), ("c","d")]`. -/
theorem xlsxLoadRows_truncates_witness :
    xlsxLoadRows
      (([("a", "b"), ("c", "d")] : List (String × String)).map
          (fun p => (some p.1, some p.2)) ++
        (Option.none, some "e") :: [(some "f", some "g")]) = [("a", "b"), ("c", "d")] :=
  xlsxLoadRows_truncates [("a", "b"), ("c", "d")] (Option.none, some "e")
    [(some "f", some "g")] (Or.inl rfl)

/-- The `info` metadata dict: the `"language"` entry (written by
`__chk_lang_attr` as a two-element list, or by `change_lang_attrs` as a
`TransPair`) plus the remaining free-form string fields in order. -/
structure Info where
  language : PyVal × PyVal
  extra : List (String × String)
deriving DecidableEq, Repr

/-- A top-level value of the parsed JSON document: an array of two-element
arrays (a serialized `TransList`) or the serialized `info` block. -/
inductive JVal where
  | jpairs (ps : List (PyVal × PyVal))
  | jinfo (info : Info)
deriving DecidableEq, Repr

/-- Lookup in an insertion-ordered string-keyed dict. -/
def lookupKey {α : Type} (k : String) : List (String × α) → Option α
  | [] => Option.none
  | kv :: rest => if kv.1 = k then some kv.2 else lookupKey k rest

/-- `dict.pop(k)`: drop the entry for `k`, keeping the order of the rest. -/
def removeKey {α : Type} (k : String) : List (String × α) → List (String × α)
  | [] => []
  | kv :: rest => if kv.1 = k then removeKey k rest else kv :: removeKey k rest

/-- `dict[k] = v`: overwrite in place when the key exists, else append. -/
def dictSet {α : Type} (d : List (String × α)) (k : String) (v : α) : List (String × α) :=
  if (lookupKey k d).isSome then d.map (fun kv => if kv.1 = k then (k, v) else kv)
  else d ++ [(k, v)]

/-- A `TransDatabase`: the insertion-ordered mapping from list name to
`TransList`, plus the `info` metadata (`database.py` lines 144-178). -/
structure TransDatabase where
  data : List (String × TransList)
  info : Info
deriving DecidableEq, Repr

/-- `TransDatabase.__chk_lang_attr(fl, sl)` (`database.py` lines 326-334):
coerce both arguments to `str`, raise `ValueError` when they are equal, else
return the two-element language list. -/
def TransDatabase.chk_lang_attr (fl sl : PyVal) : Except PyErr (String × String) :=
  let fl2 := pyStr fl
  let sl2 := pyStr sl
  if fl2 = sl2 then .error .valueError else .ok (fl2, sl2)

/-- `TransDatabase.__setitem__(trans_list_name, trans_list)` (`database.py`
lines 180-191): a non-string name raises `TypeError`; for a non-`TransList`
value the source builds a `TypeError` object but never
raises it, so the call returns normally with the mapping unchanged; otherwise
the entry is stored, overwriting any existing one. -/
def TransDatabase.setitem (db : TransDatabase) (name : PyVal) (v : PyObj) :
    Except PyErr TransDatabase :=
  if ¬ name.isStr then .error .typeError
  else
    match v with
    | .transList tl => .ok { db with data := dictSet db.data (pyStr name) tl }
    | _ => .ok db

/-- `TransDatabase.add(trans_list_name, trans_list=None)` (`database.py`
lines 193-205): an existing key raises `KeyError`; with no list supplied the
source builds `TransList()` but — having no `else` fall-through to the store —
never stores it; a supplied list is stored through `__setitem__`. -/
def TransDatabase.add (db : TransDatabase) (name : String) (tl : Option TransList) :
    Except PyErr TransDatabase :=
  if (lookupKey name db.data).isSome then .error .keyError
  else
    match tl with
    | Option.none => .ok db
    | some t => db.setitem (.str name) (.transList t)

/-- `TransDatabase.change_lang_attrs(first_lang, second_lang)` (`database.py`
lines 224-226): stores `TransPair(first_lang, second_lang)` into
`info["language"]` — only the checks of `TransPair.__init__` run, no
distinctness check. -/
def TransDatabase.change_lang_attrs (db : TransDatabase) (fl sl : PyVal) :
    Except PyErr TransDatabase :=
  (TransPair.init fl sl).map fun tp =>
    { db with info := { db.info with language := (tp.fst, tp.snd) } }

/-- Inner loop of `TransDatabase.__init__` over one decorated list
(`database.py` lines 175-177): each raw two-element entry becomes a
`TransPair` appended through `TransList.append`. -/
def buildTransListAux (acc : TransList) : List (PyVal × PyVal) → Except PyErr TransList
  | [] => .ok acc
  | p :: ps =>
    match TransPair.init p.1 p.2 with
    | .error e => .error e
    | .ok tp =>
      match TransList.appendPair acc tp with
      | .error e => .error e
      | .ok acc2 => buildTransListAux acc2 ps

/-- Outer loop of `TransDatabase.__init__` over the remaining keyword
arguments (`database.py` lines 174-178): build each `TransList` and register
it with `add`.  A serialized info block can only sit under the reserved key,
which is popped before this loop, so a `jinfo` value here has no Python
counterpart and is mapped to an error. -/
def TransDatabase.buildLists (db : TransDatabase) :
    List (String × JVal) → Except PyErr TransDatabase
  | [] => .ok db
  | (name, .jpairs ps) :: rest =>
    match buildTransListAux [] ps with
    | .error e => .error e
    | .ok tl =>
      match db.add name (some tl) with
      | .error e => .error e
      | .ok db2 => TransDatabase.buildLists db2 rest
  | (_, .jinfo _) :: _ => .error .typeError

/-- `TransDatabase.__init__(first_lang=None, second_lang=None, **kwargs)`
(`database.py` lines 160-178): with an `"info"` keyword the loaded info block
is taken verbatim, its `language` recomputed by `__chk_lang_attr`; otherwise
a missing language argument raises `TypeError` and a fresh info block is
built.  Either way the remaining keyword arguments are registered. -/
def TransDatabase.init (first_lang second_lang : PyVal)
    (kwargs : List (String × JVal)) : Except PyErr TransDatabase :=
  match lookupKey "info" kwargs with
  | some (.jinfo info0) =>
    match TransDatabase.chk_lang_attr first_lang second_lang with
    | .error e => .error e
    | .ok langs =>
      TransDatabase.buildLists
        ⟨[], { info0 with language := (.str langs.1, .str langs.2) }⟩
        (removeKey "info" kwargs)
  | some (.jpairs _) => .error .typeError
  | Option.none =>
    if first_lang = .none ∨ second_lang = .none then .error .typeError
    else
      match TransDatabase.chk_lang_attr first_lang second_lang with
      | .error e => .error e
      | .ok langs =>
        TransDatabase.buildLists
          ⟨[], { language := (.str langs.1, .str langs.2),
                 extra := [("creator", "Daniel Daninsky"),
                           ("script", "duobreaker v0.1")] }⟩
          kwargs

/-- `TransDatabase.__json_save` (`database.py` lines 288-298) up to file
I/O: each entry becomes a key mapping to the list of its two-element pairs,
then the info block is stored under the reserved `"info"` key.  Writing the
document to disk and parsing it back (`__json_load`, lines 319-324) is the
identity on this structure, so the saved-then-parsed document is
`json_save` itself. -/
def TransDatabase.json_save (db : TransDatabase) : List (String × JVal) :=
  dictSet
    (db.data.map fun kv => (kv.1, JVal.jpairs (kv.2.map fun tp => (tp.fst, tp.snd))))
    "info" (.jinfo db.info)

/-- `TransDatabase.fromfile` on a parsed JSON document (`database.py` lines
240-259): read the two language identifiers out of `kwargs["info"]["language"]`
(`KeyError` when the reserved key is missing) and rebuild through the
constructor with the full document as keyword arguments. -/
def TransDatabase.fromfile (doc : List (String × JVal)) : Except PyErr TransDatabase :=
  match lookupKey "info" doc with
  | some (.jinfo info) => TransDatabase.init info.language.1 info.language.2 doc
  | some (.jpairs _) => .error .typeError
  | Option.none => .error .keyError

theorem setitem_info (db db2 : TransDatabase) (name : PyVal) (v : PyObj)
    (h : db.setitem name v = .ok db2) : db2.info = db.info := by
  unfold TransDatabase.setitem at h
  split at h
  · cases h
  · split at h <;> cases h <;> rfl

theorem add_info (db db2 : TransDatabase) (name : String) (tl : Option TransList)
    (h : db.add name tl = .ok db2) : db2.info = db.info := by
  unfold TransDatabase.add at h
  by_cases hk : (lookupKey name db.data).isSome
  · simp [hk] at h
  · simp only [hk, if_neg, Bool.false_eq_true, not_false_eq_true, if_false] at h
    cases tl with
    | none => cases h; rfl
    | some t => exact setitem_info db db2 _ _ h

theorem buildLists_info (kw : List (String × JVal)) :
    ∀ db db2, TransDatabase.buildLists db kw = .ok db2 → db2.info = db.info := by
  induction kw with
  | nil =>
    intro db db2 h
    cases h
    rfl
  | cons kv rest ih =>
    intro db db2 h
    obtain ⟨name, jv⟩ := kv
    cases jv with
    | jinfo i => simp [TransDatabase.buildLists] at h
    | jpairs ps =>
      simp only [TransDatabase.buildLists] at h
      rcases htl : buildTransListAux [] ps with e | tl <;> rw [htl] at h
      · exact Except.noConfusion h
      · change (match db.add name (some tl) with
          | Except.error e => Except.error e
          | Except.ok db4 => TransDatabase.buildLists db4 rest) = Except.ok db2 at h
        rcases hadd : db.add name (some tl) with e2 | db3 <;> rw [hadd] at h
        · exact Except.noConfusion h
        · exact (ih db3 db2 h).trans (add_info db db3 name (some tl) hadd)

theorem chk_lang_attr_ok_ne (fl sl : PyVal) (p : String × String)
    (h : TransDatabase.chk_lang_attr fl sl = .ok p) : p.1 ≠ p.2 := by
  unfold TransDatabase.chk_lang_attr at h
  by_cases he : pyStr fl = pyStr sl
  · simp [he] at h
  · simp only [he, if_false] at h
    cases h
    exact he

/-- C2 (amended) — language distinctness: every successful run of the
constructor yields a state whose two `info.language` identifiers differ
(`__chk_lang_attr` rejects equal coerced identifiers); but
`change_lang_attrs` performs no such check, and accepts arguments — here
`("EN", "EN")` on a freshly built database — that leave the state with two
equal identifiers. -/
theorem transDatabase_lang_distinctness :
    (∀ fl sl kw db, TransDatabase.init fl sl kw = .ok db →
      db.info.language.1 ≠ db.info.language.2) ∧
    (∃ db db2 : TransDatabase,
      TransDatabase.init (.str "EN") (.str "DE") [] = .ok db ∧
      TransDatabase.change_lang_attrs db (.str "EN") (.str "EN") = .ok db2 ∧
      db2.info.language.1 = db2.info.language.2) := by
  constructor
  · intro fl sl kw db h
    unfold TransDatabase.init at h
    have main :
        ∀ (extra0 : List (String × String)) (kw2 : List (String × JVal)),
          (match TransDatabase.chk_lang_attr fl sl with
            | .error e => (.error e : Except PyErr TransDatabase)
            | .ok langs =>
              TransDatabase.buildLists
                ⟨[], ⟨(.str langs.1, .str langs.2), extra0⟩⟩ kw2) =
            .ok db →
          db.info.language.1 ≠ db.info.language.2 := by
      intro extra0 kw2 h2
      split at h2
      · cases h2
      · rename_i langs hc
        have hinfo := buildLists_info kw2 _ db h2
        have hne := chk_lang_attr_ok_ne fl sl langs hc
        rw [hinfo]
        simpa using hne
    split at h
    · rename_i info0 _
      exact main info0.extra (removeKey "info" kw) h
    · cases h
    · split at h
      · cases h
      · exact main _ kw h
  · exact ⟨⟨[], ⟨(.str "EN", .str "DE"),
        [("creator", "Daniel Daninsky"), ("script", "duobreaker v0.1")]⟩⟩,
      ⟨[], ⟨(.str "EN", .str "EN"),
        [("creator", "Daniel Daninsky"), ("script", "duobreaker v0.1")]⟩⟩,
      rfl, rfl, rfl⟩

/-- C2 (counterexample) — the claim as stated is false: `change_lang_attrs`
accepts the arguments `("EN", "EN")` on a reachable state (a database freshly
constructed with languages `"EN"`, `"DE"`) and produces a state whose two
`info.language` identifiers are equal. -/
theorem transDatabase_lang_distinctness_counterexample :
    ∃ db db2 : TransDatabase,
      TransDatabase.init (.str "EN") (.str "DE") [] = .ok db ∧
      TransDatabase.change_lang_attrs db (.str "EN") (.str "EN") = .ok db2 ∧
      db2.info.language.1 = db2.info.language.2 :=
  ⟨⟨[], ⟨(.str "EN", .str "DE"),
      [("creator", "Daniel Daninsky"), ("script", "duobreaker v0.1")]⟩⟩,
    ⟨[], ⟨(.str "EN", .str "EN"),
      [("creator", "Daniel Daninsky"), ("script", "duobreaker v0.1")]⟩⟩,
    rfl, rfl, rfl⟩

/-- C3 — the finding at the failing input: on a fresh database (no key
`"greetings"`), `add("greetings")` with no list supplied returns normally but
stores nothing — afterwards `"greetings"` is still not a key — contradicting
the method docstring "Add TransList with its name in the end of
TransDatabase." -/
theorem transDatabase_add_none_not_stored :
    ∃ db : TransDatabase,
      TransDatabase.init (.str "EN") (.str "DE") [] = .ok db ∧
      TransDatabase.add db "greetings" Option.none = .ok db ∧
      lookupKey "greetings" db.data = Option.none :=
  ⟨⟨[], ⟨(.str "EN", .str "DE"),
      [("creator", "Daniel Daninsky"), ("script", "duobreaker v0.1")]⟩⟩,
    rfl, rfl, rfl⟩

/-- C5 — the finding at the failing input: assigning a non-`TransList` value
(a raw list) under a fresh string key raises nothing — the `TypeError` in the
source is constructed but never raised — and leaves the database unchanged,
with the key still absent. -/
theorem transDatabase_setitem_nonlist_silent :
    ∃ db : TransDatabase,
      TransDatabase.init (.str "EN") (.str "DE") [] = .ok db ∧
      TransDatabase.setitem db (.str "x") (PyObj.rawList [PyVal.str "y"]) = .ok db ∧
      lookupKey "x" db.data = Option.none :=
  ⟨⟨[], ⟨(.str "EN", .str "DE"),
      [("creator", "Daniel Daninsky"), ("script", "duobreaker v0.1")]⟩⟩,
    rfl, rfl, rfl⟩

/-- C1 — JSON round-trip: the database built with languages `("EN", "DE")`
and the single list `"greetings"` holding `("hello", "hallo")` then
`("bye", "tschüss")`, saved with the JSON codec and loaded back through the
`fromfile` factory, reconstructs the state exactly — equal list names, equal
pairs in the same order, and equal language identifiers in the same order. -/
theorem transDatabase_json_roundtrip :
    ∃ db : TransDatabase,
      TransDatabase.init (.str "EN") (.str "DE")
        [("greetings", .jpairs
          [(.str "hello", .str "hallo"), (.str "bye", .str "tschüss")])] = .ok db ∧
      TransDatabase.fromfile (TransDatabase.json_save db) = .ok db ∧
      db.data.map Prod.fst = ["greetings"] ∧
      lookupKey "greetings" db.data =
        some [⟨.str "hello", .str "hallo"⟩, ⟨.str "bye", .str "tschüss"⟩] ∧
      db.info.language = (.str "EN", .str "DE") :=
  ⟨⟨[("greetings", [⟨.str "hello", .str "hallo"⟩, ⟨.str "bye", .str "tschüss"⟩])],
      ⟨(.str "EN", .str "DE"),
        [("creator", "Daniel Daninsky"), ("script", "duobreaker v0.1")]⟩⟩,
    rfl, rfl, rfl, rfl, rfl⟩
